import Mathlib

/-!
Verification of the SIGNAL-ALERT position lifecycle and monitoring engine.

The repository ships two source files: `src/app/main.py` (the Flask request
layer) and `src/app/services/config_manager.py` (the configuration
singleton).  The position engine itself (`PositionManager`,
`DataManager`, `SignalScheduler`, `app/utils/core_utils`) is imported by
`main.py` but its code is not part of the repository snapshot, so the
engine below is modelled from the specification (spec.md sections 3, 4,
5, 7), while the request layer and the configuration manager are
translated directly from the Python source.

Prices and percentages are rationals; `hit_flags` and `take_profits` are
parallel lists, level index `k` corresponding to TP(k+1) of the spec.
Timestamps (`opened_at`, `closed_at`) are omitted: no claim below
mentions them.
-/

namespace SignalAlert

/-- Modelled from the spec (section 3): trade direction. -/
inductive Direction where
  | long
  | short
deriving DecidableEq, Repr

/-- Modelled from the spec (section 3): position status. -/
inductive Status where
  | OPEN
  | CLOSED
deriving DecidableEq, Repr

/-- Modelled from the spec (section 3): reason recorded when a position closes. -/
inductive CloseReason where
  | STOP_LOSS
  | FINAL_TAKE_PROFIT
  | MANUAL
  | OTHER
deriving DecidableEq, Repr

/-- Modelled from the spec (section 3): one tracked position.  The
`PositionManager` record type is not under `src/`; fields follow the
spec's data model.  `realized_pnl_pct` is set only at close. -/
structure Position where
  id : String
  symbol : String
  timeframe : String
  direction : Direction
  entry_price : ℚ
  stop_loss : ℚ
  take_profits : List ℚ
  hit_flags : List Bool
  status : Status
  close_reason : Option CloseReason
  realized_pnl_pct : Option ℚ
deriving DecidableEq, Repr

/-- Modelled from the spec (section 4.2): a take-profit threshold is
crossed by the current price (LONG: price at or above; SHORT: at or below). -/
def tpCrossed (dir : Direction) (price tp : ℚ) : Bool :=
  match dir with
  | .long => decide (tp ≤ price)
  | .short => decide (price ≤ tp)

/-- Modelled from the spec (section 4.2): the stop-loss is crossed
(LONG: price at or below; SHORT: at or above). -/
def slCrossed (dir : Direction) (price sl : ℚ) : Bool :=
  match dir with
  | .long => decide (price ≤ sl)
  | .short => decide (sl ≤ price)

/-- Modelled from the spec (sections 4.1, 4.2): a transition produced by the
threshold evaluator or by a manual close; `NoOp` is represented by the
absence of a transition. -/
inductive Transition where
  | tpHit (level : Nat) (price : ℚ)
  | slHit (price : ℚ)
  | manualClose (reason : CloseReason)
deriving DecidableEq, Repr

/-- Modelled from the spec (section 4.2): scan the (take-profit, hit-flag)
pairs in level order starting at index `k`, collecting the indices of
not-yet-hit levels crossed by the price, in ascending order. -/
def newTpLevels (dir : Direction) (price : ℚ) : List (ℚ × Bool) → Nat → List Nat
  | [], _ => []
  | (tp, flag) :: rest, k =>
    if !flag && tpCrossed dir price tp then
      k :: newTpLevels dir price rest (k + 1)
    else
      newTpLevels dir price rest (k + 1)

/-- Modelled from the spec (section 4.2): evaluate one price sample against a
position.  A CLOSED position yields no transitions; a crossed stop-loss is
authoritative over any simultaneously crossed take-profit (the defined
tie-break); otherwise all not-yet-hit crossed TP levels are reported in
ascending order. -/
def evaluate (p : Position) (price : ℚ) : List Transition :=
  if p.status = Status.CLOSED then []
  else if slCrossed p.direction price p.stop_loss then [Transition.slHit price]
  else (newTpLevels p.direction price (p.take_profits.zip p.hit_flags) 0).map
    (fun k => Transition.tpHit k price)

/-- Modelled from the spec (section 3): realized pnl percent computed at close
from entry and exit price and the direction. -/
def pnlPct (dir : Direction) (entry exitPrice : ℚ) : ℚ :=
  match dir with
  | .long => (exitPrice - entry) / entry * 100
  | .short => (entry - exitPrice) / entry * 100

/-- Modelled from the spec (section 3): mark a position CLOSED with a reason
and an optional realized pnl. -/
def closeWith (p : Position) (reason : CloseReason) (pnl : Option ℚ) : Position :=
  { p with status := Status.CLOSED, close_reason := some reason,
           realized_pnl_pct := pnl }

/-- Modelled from the spec (section 4.1): apply one transition to one
position, returning the new position and whether state actually changed.
A CLOSED position is never mutated (idempotent close); a TP hit whose flag
is already set is absorbed (monotonic hit flags); hitting the final
configured TP level closes the position with FINAL_TAKE_PROFIT. -/
def applyToPosition (p : Position) (t : Transition) : Position × Bool :=
  if p.status = Status.CLOSED then (p, false)
  else
    match t with
    | .slHit price =>
      (closeWith p CloseReason.STOP_LOSS (some (pnlPct p.direction p.entry_price price)), true)
    | .manualClose reason => (closeWith p reason none, true)
    | .tpHit k price =>
      match p.hit_flags.get? k with
      | none => (p, false)
      | some true => (p, false)
      | some false =>
        let flags := p.hit_flags.set k true
        if k + 1 = p.take_profits.length then
          (closeWith { p with hit_flags := flags } CloseReason.FINAL_TAKE_PROFIT
            (some (pnlPct p.direction p.entry_price price)), true)
        else
          ({ p with hit_flags := flags }, true)

/-- Modelled from the spec (section 4.1): the store is the insertion-ordered
collection of positions; in the source the manager keeps one entry per id
(a Python dict), so mutations touch the first (only) entry with a given id. -/
abbrev Store := List Position

/-- Modelled from the spec (section 4.1): locate a position by id. -/
def findPosition : Store → String → Option Position
  | [], _ => none
  | p :: rest, i => if p.id = i then some p else findPosition rest i

/-- Modelled from the spec (section 4.1): the only mutation entry point.
Applies the transition to the position with the given id; `none` models the
NotFound failure; the Bool reports whether state actually changed (false on
an already-CLOSED position or an already-set hit flag). -/
def applyTransition : Store → String → Transition → Option (Store × Bool)
  | [], _, _ => none
  | p :: rest, i, t =>
    if p.id = i then
      some ((applyToPosition p t).1 :: rest, (applyToPosition p t).2)
    else
      match applyTransition rest i t with
      | none => none
      | some (rest1, ch) => some (p :: rest1, ch)

/-- Modelled from the spec (section 4.4): `close_position(id, reason)`
delegates to `apply_transition` with a manual close and returns whether it
actually changed state; a missing id also reports no change (the HTTP layer
folds NotFound and AlreadyClosed into one `False`). -/
def closePosition (s : Store) (i : String) (reason : CloseReason) : Store × Bool :=
  match applyTransition s i (Transition.manualClose reason) with
  | none => (s, false)
  | some r => r

/-- Modelled from the spec (section 4.3 step 4): the per-position entry of the
update-pass result. `tp_hits` lists the level indices committed this pass. -/
structure UpdateResult where
  tp_hits : List Nat
  position_closed : Bool
  close_reason : Option CloseReason
deriving DecidableEq, Repr

/-- Modelled from the spec (section 4.3 step 3): apply the evaluator's
transitions to one position in order, collecting the TP levels that were
actually committed (changed state). -/
def applyTransitions : Position → List Transition → Position × List Nat
  | p, [] => (p, [])
  | p, t :: ts =>
    let step := applyToPosition p t
    let rest := applyTransitions step.1 ts
    match t with
    | .tpHit k _ => (rest.1, if step.2 then k :: rest.2 else rest.2)
    | _ => (rest.1, rest.2)

/-- Modelled from the spec (section 4.3 steps 3-4): evaluate one price sample
for one position and apply every resulting transition, producing the new
position and its update-result entry. -/
def updatePosition (p : Position) (price : ℚ) : Position × UpdateResult :=
  let res := applyTransitions p (evaluate p price)
  let closedNow := decide (p.status = Status.OPEN) && decide (res.1.status = Status.CLOSED)
  (res.1,
   { tp_hits := res.2,
     position_closed := closedNow,
     close_reason := if closedNow then res.1.close_reason else none })

/-- Modelled from the spec (section 4.3): one update pass over the whole
store.  Prices come per symbol; a symbol whose price is unavailable is
skipped fail-soft for this pass (no transition attempted); only OPEN
positions are evaluated; positions with at least one committed transition
appear in the result mapping, keyed by id. -/
def runUpdatePass (prices : String → Option ℚ) : Store → Store × List (String × UpdateResult)
  | [] => ([], [])
  | p :: rest =>
    let tail := runUpdatePass prices rest
    match prices p.symbol with
    | none => (p :: tail.1, tail.2)
    | some price =>
      if p.status = Status.OPEN then
        let u := updatePosition p price
        (u.1 :: tail.1,
         if u.2.tp_hits.isEmpty && !u.2.position_closed then tail.2
         else (p.id, u.2) :: tail.2)
      else (p :: tail.1, tail.2)

/-- Modelled from the spec (section 8): a whole sequence of update passes,
one price source per pass. -/
def runPasses : Store → List (String → Option ℚ) → Store
  | s, [] => s
  | s, f :: fs => runPasses (runUpdatePass f s).1 fs

/-- Modelled from the spec (section 4.1) and the summary keys used by
`src/app/main.py`: the summary record. -/
structure Summary where
  total_positions : Nat
  active_positions : Nat
  closed_positions : Nat
  win_rate_pct : ℚ
  total_pnl_pct : ℚ
deriving DecidableEq, Repr

/-- Modelled from the spec (section 4.1): single scan over the snapshot
accumulating (total, closed, closed-winning, total pnl over closed). -/
def summaryScan : Store → Nat × Nat × Nat × ℚ
  | [] => (0, 0, 0, 0)
  | p :: rest =>
    let acc := summaryScan rest
    match p.status with
    | Status.OPEN => (acc.1 + 1, acc.2.1, acc.2.2.1, acc.2.2.2)
    | Status.CLOSED =>
      let pnl := p.realized_pnl_pct.getD 0
      (acc.1 + 1, acc.2.1 + 1, acc.2.2.1 + (if 0 < pnl then 1 else 0), acc.2.2.2 + pnl)

/-- Modelled from the spec (section 4.1 summary): totals, win rate over
closed positions (a closed position wins when its realized pnl is positive),
and total pnl over closed positions only. -/
def getPositionsSummary (s : Store) : Summary :=
  let acc := summaryScan s
  { total_positions := acc.1
    active_positions := acc.1 - acc.2.1
    closed_positions := acc.2.1
    win_rate_pct := if acc.2.1 = 0 then 0 else (acc.2.2.1 : ℚ) / (acc.2.1 : ℚ) * 100
    total_pnl_pct := acc.2.2.2 }

/-- The spec's wording for the evaluator output (section 4.2): exactly the
indices of not-yet-hit take-profit levels crossed by the price, in level
order. -/
def newLevels (p : Position) (price : ℚ) : List Nat :=
  (List.range (min p.take_profits.length p.hit_flags.length)).filter
    (fun k => !(p.hit_flags.getD k true) && tpCrossed p.direction price (p.take_profits.getD k 0))

/-- The spec's worked LONG example (section 8): entry 100, SL 95, TP [110, 120, 130]. -/
def demoLong : Position :=
  { id := "BTCUSDT_4h", symbol := "BTCUSDT", timeframe := "4h",
    direction := Direction.long, entry_price := 100, stop_loss := 95,
    take_profits := [110, 120, 130], hit_flags := [false, false, false],
    status := Status.OPEN, close_reason := none, realized_pnl_pct := none }

/-- `demoLong` after TP1 committed. -/
def demoLong1 : Position := { demoLong with hit_flags := [true, false, false] }

/-- `demoLong` after TP1 and TP2 committed. -/
def demoLong2 : Position := { demoLong with hit_flags := [true, true, false] }

/-- The spec's worked SHORT example (section 8): entry 100, SL 105, TP [90]. -/
def demoShort : Position :=
  { id := "ETHUSDT_4h", symbol := "ETHUSDT", timeframe := "4h",
    direction := Direction.short, entry_price := 100, stop_loss := 105,
    take_profits := [90], hit_flags := [false],
    status := Status.OPEN, close_reason := none, realized_pnl_pct := none }

/-- `demoLong` after the jump to 135: all levels hit, closed on the final TP. -/
def demoLongDone : Position :=
  { demoLong with
      hit_flags := [true, true, true], status := Status.CLOSED,
      close_reason := some CloseReason.FINAL_TAKE_PROFIT, realized_pnl_pct := some 35 }

/-- `demoLong2` after sample 131: closed on the final TP with pnl 31. -/
def demoLong3 : Position :=
  { demoLong with
      hit_flags := [true, true, true], status := Status.CLOSED,
      close_reason := some CloseReason.FINAL_TAKE_PROFIT, realized_pnl_pct := some 31 }

/-- `demoShort` after sample 106: closed on the stop-loss. -/
def demoShortClosed : Position :=
  { demoShort with
      status := Status.CLOSED,
      close_reason := some CloseReason.STOP_LOSS, realized_pnl_pct := some (-6) }

/-- A LONG position whose stop-loss sits above its only take-profit, so a
single price sample can cross both thresholds (witness for the tie-break). -/
def demoOverlap : Position :=
  { id := "SOLUSDT_4h", symbol := "SOLUSDT", timeframe := "4h",
    direction := Direction.long, entry_price := 100, stop_loss := 100,
    take_profits := [95], hit_flags := [false],
    status := Status.OPEN, close_reason := none, realized_pnl_pct := none }

/-- An already-CLOSED position used as concrete input for the close endpoint. -/
def demoClosedManual : Position :=
  { demoLong with
      id := "XRPUSDT_1h", symbol := "XRPUSDT", timeframe := "1h",
      status := Status.CLOSED, close_reason := some CloseReason.MANUAL,
      realized_pnl_pct := some 0 }

/-! ## The request layer, translated from `src/app/main.py` -/

/-- The slice of a Flask JSON reply the claims reason about: the HTTP status
code and whether the body carries `"status": "success"`. -/
structure CloseReply where
  http_status : Nat
  success : Bool
deriving DecidableEq, Repr

/-- Translated from `src/app/main.py` `close_position` (lines 451-480): the
POST `/api/positions/close` endpoint.  A missing `position_id` gives 400;
otherwise it calls `PositionManager.close_position` and maps `False`
(which covers both a missing id and an already-closed position) to an HTTP
404 error whose body reads "Position not found or already closed". -/
def close_position_route (s : Store) (position_id : Option String)
    (reason : CloseReason) : Store × CloseReply :=
  match position_id with
  | none => (s, { http_status := 400, success := false })
  | some i =>
    let r := closePosition s i reason
    if r.2 then (r.1, { http_status := 200, success := true })
    else (r.1, { http_status := 404, success := false })

/-- The slice of a guarded endpoint's reply the claims reason about. -/
structure GuardReply where
  http_status : Nat
  retry_after : Option Nat
deriving DecidableEq, Repr

/-- Translated from `src/app/main.py` `require_services` (lines 348-359):
the decorator returns 503 with a `retry_after` hint of 30 when
`services["initialized"]` is false, and otherwise invokes the wrapped
handler.  The Bool in the result records whether the handler ran. -/
def require_services {α : Type} (inited : Bool) (f : α → GuardReply)
    (arg : α) : GuardReply × Bool :=
  if inited then (f arg, true)
  else ({ http_status := 503, retry_after := some 30 }, false)

/-- The slice of the keepalive reply the claims reason about. -/
structure KeepaliveReply where
  alive : Bool
  scheduler_status : String
  active_positions : Nat
deriving DecidableEq, Repr

/-- Translated from `src/app/main.py` `keepalive` (lines 300-345): when
services are ready and a scheduler exists, read its status; when that
status is "stopped", call `start_scheduler` and report "restarted".  The
scheduler itself is not under `src/`, so it is represented by the status
string its `get_scheduler_status` reports; the Bool in the result records
whether `start_scheduler` was invoked. -/
def keepalive (inited : Bool) (sched : Option String) (store : Option Store) :
    KeepaliveReply × Bool :=
  let schedPart :=
    match inited, sched with
    | true, some st => if st = "stopped" then ("restarted", true) else (st, false)
    | _, _ => ("unknown", false)
  let posCount :=
    match store with
    | some s => (getPositionsSummary s).active_positions
    | none => 0
  ({ alive := true, scheduler_status := schedPart.1, active_positions := posCount },
   schedPart.2)

/-! ## The configuration manager, translated from
`src/app/services/config_manager.py` -/

/-- The environment variables read by `config_manager.py`
(`none` models an unset variable). -/
structure Env where
  google_sheets_id : Option String
  line_channel_access_token : Option String
  line_channel_secret : Option String
  line_user_id : Option String
  debug : Option String
  port : Option String
  version : Option String
  google_application_credentials : Option String
deriving DecidableEq, Repr

/-- The configuration dictionary built by `_load_config`. -/
structure Config where
  google_sheets_id : String
  line_channel_access_token : String
  line_channel_secret : String
  line_user_id : String
  debug : Bool
  port : Nat
  binance_base_url : String
  version : String
  google_application_credentials : String
deriving DecidableEq, Repr

/-- Python's `str.lower()`, modelled characterwise (kept kernel-computable;
the source only compares the result against "true"). -/
def lowerStr (s : String) : String := String.mk (s.data.map Char.toLower)

/-- One decimal digit's value. -/
def digitVal (c : Char) : Option Nat :=
  if '0' <= c && c <= '9' then some (c.toNat - ('0').toNat) else none

/-- Helper for `parseNat`. -/
def parseNatAux (acc : Nat) : List Char -> Option Nat
  | [] => some acc
  | c :: cs =>
    match digitVal c with
    | none => none
    | some d => parseNatAux (acc * 10 + d) cs

/-- Python's `int()` on the decimal strings this code passes it ('none'
models the raised ValueError). -/
def parseNat (s : String) : Option Nat :=
  match s.data with
  | [] => none
  | cs => parseNatAux 0 cs

/-- Modelled from the spec: `ConfigValidator.validate_required_env_vars`
lives in `app/utils/core_utils`, which is not under `src/`; per its use in
`config_manager.py` it returns the required variables' values and raises
when one is missing. -/
def requiredEnvVars (env : Env) : Except String (String × String × String × String) :=
  match env.google_sheets_id, env.line_channel_access_token,
        env.line_channel_secret, env.line_user_id with
  | some a, some b, some c, some d => Except.ok (a, b, c, d)
  | _, _, _, _ => Except.error "missing required environment variable"

/-- Translated from `config_manager.py` `_load_config` and
`_validate_config`: read the required variables, add optional entries with
defaults, then validate the port range, the Google-Sheets id length and
the LINE token length. -/
def loadConfig (env : Env) : Except String Config :=
  match requiredEnvVars env with
  | Except.error e => Except.error e
  | Except.ok (sheets, token, secret, user) =>
    match parseNat (env.port.getD "8080") with
    | none => Except.error "invalid port"
    | some portVal =>
      if ¬(1024 ≤ portVal ∧ portVal ≤ 65535) then Except.error "invalid port"
      else if sheets.length < 20 then Except.error "invalid Google Sheets ID"
      else if token.length < 50 then Except.error "invalid LINE token"
      else Except.ok
        { google_sheets_id := sheets,
          line_channel_access_token := token,
          line_channel_secret := secret,
          line_user_id := user,
          debug := lowerStr (env.debug.getD "false") = "true",
          port := portVal,
          binance_base_url := "https://api.binance.com/api/v3",
          version := env.version.getD "2.0-refactored",
          google_application_credentials :=
            env.google_application_credentials.getD "/app/credentials.json" }

/-- The class-level state of `ConfigManager`: the `_instance` slot (the
object id of the allocated singleton, if any), the singleton's `_config`
attribute, a counter of load attempts, and an allocation counter supplying
fresh object ids. -/
structure CMState where
  instanceId : Option Nat
  config : Option Config
  loads : Nat
  nextId : Nat
deriving DecidableEq, Repr

/-- Translated from `config_manager.py` `__new__`/`__init__`: calling
`ConfigManager()` allocates the instance only when `_instance` is None,
then loads and validates the configuration only when `_config` is None.
Returns the new class state together with the object id of the returned
instance, or the load error (Python would propagate the exception; the
instance allocated by `__new__` survives it). -/
def constructCM (env : Env) (s : CMState) : CMState × Except String Nat :=
  let alloc :=
    match s.instanceId with
    | some i => (s, i)
    | none => ({ s with instanceId := some s.nextId, nextId := s.nextId + 1 }, s.nextId)
  match alloc.1.config with
  | some _ => (alloc.1, Except.ok alloc.2)
  | none =>
    match loadConfig env with
    | Except.ok c =>
      ({ alloc.1 with config := some c, loads := alloc.1.loads + 1 }, Except.ok alloc.2)
    | Except.error e =>
      ({ alloc.1 with loads := alloc.1.loads + 1 }, Except.error e)

/-- Translated from `config_manager.py` `get_all`: the value an instance's
`get_all()` returns (a copy of `_config`, so value equality is the right
notion). -/
def getAllCM (s : CMState) : Option Config := s.config

/-- The freshly-imported class state: no instance, no config. -/
def initialCMState : CMState :=
  { instanceId := none, config := none, loads := 0, nextId := 0 }

/-- A concrete environment accepted by `loadConfig`, used as witness input. -/
def demoEnv : Env :=
  { google_sheets_id := some "1AbCdEfGhIjKlMnOpQrStUv",
    line_channel_access_token :=
      some "tok______________________________________________50",
    line_channel_secret := some "secret",
    line_user_id := some "U123",
    debug := some "false",
    port := none,
    version := none,
    google_application_credentials := none }

/-- The configuration `loadConfig` produces from `demoEnv`. -/
def demoConfig : Config :=
  { google_sheets_id := "1AbCdEfGhIjKlMnOpQrStUv",
    line_channel_access_token :=
      "tok______________________________________________50",
    line_channel_secret := "secret",
    line_user_id := "U123",
    debug := false,
    port := 8080,
    binance_base_url := "https://api.binance.com/api/v3",
    version := "2.0-refactored",
    google_application_credentials := "/app/credentials.json" }

/-- Pointwise monotonicity of hit flags: every level flagged true in `p`
is still flagged true in `q`. -/
def flagsMono (p q : Position) : Prop :=
  ∀ k, p.hit_flags.getD k false = true → q.hit_flags.getD k false = true

/-! ## Theorems -/

theorem flagsMono_refl (p : Position) : flagsMono p p := fun _ h => h

theorem flagsMono_trans {p q r : Position} (h1 : flagsMono p q)
    (h2 : flagsMono q r) : flagsMono p r :=
  fun k h => h2 k (h1 k h)

/-- C9: every request hitting a `require_services`-wrapped endpoint while the
services flag is false gets HTTP 503 with a `retry_after` hint of 30, and the
underlying handler is not invoked (the result is independent of `f` and the
invocation flag is false). -/
theorem require_services_gate_blocks {α : Type} (inited : Bool)
    (f : α → GuardReply) (arg : α) (h : inited = false) :
    require_services inited f arg =
      ({ http_status := 503, retry_after := some 30 }, false) := by
  subst h
  simp [require_services]

/-- Witness for C9 at a concrete handler and argument. -/
theorem require_services_gate_blocks_witness :
    require_services false (fun _ : Nat => { http_status := 200, retry_after := none })
      0 = ({ http_status := 503, retry_after := some 30 }, false) :=
  require_services_gate_blocks false (fun _ : Nat => { http_status := 200, retry_after := none }) 0 rfl

/-- C10: a GET /keepalive issued while services are ready and the scheduler
reports status "stopped" invokes `start_scheduler` and reports
`scheduler_status` "restarted". -/
theorem keepalive_restarts_stopped_scheduler (st : String) (store : Option Store)
    (h : st = "stopped") :
    (keepalive true (some st) store).1.scheduler_status = "restarted"
    ∧ (keepalive true (some st) store).2 = true := by
  subst h
  simp [keepalive]

/-- Witness for C10 at a concrete scheduler status and store. -/
theorem keepalive_restarts_stopped_scheduler_witness :
    (keepalive true (some "stopped") (some [])).1.scheduler_status = "restarted"
    ∧ (keepalive true (some "stopped") (some [])).2 = true :=
  keepalive_restarts_stopped_scheduler "stopped" (some []) rfl

/-- C8: constructing `ConfigManager` any number of times yields the same
singleton instance and loads/validates configuration at most once: from any
class state, the first construction returns some object id, the second
construction returns the very same id without changing the class state (so
`get_all` is the same for both), and at most one load was performed. -/
theorem config_manager_singleton (env : Env) (s : CMState) (c : Config)
    (h : loadConfig env = Except.ok c) :
    ∃ i, (constructCM env s).2 = Except.ok i
      ∧ constructCM env (constructCM env s).1 = ((constructCM env s).1, Except.ok i)
      ∧ (constructCM env s).1.loads ≤ s.loads + 1
      ∧ getAllCM (constructCM env (constructCM env s).1).1 = getAllCM (constructCM env s).1 := by
  rcases s with ⟨inst, cfg, loads, nid⟩
  cases inst <;> cases cfg <;>
    simp [constructCM, getAllCM, h]

/-- Witness for C8 at the freshly-imported class state and a concrete
environment accepted by the validator. -/
theorem config_manager_singleton_witness :
    ∃ i, (constructCM demoEnv initialCMState).2 = Except.ok i
      ∧ constructCM demoEnv (constructCM demoEnv initialCMState).1 =
          ((constructCM demoEnv initialCMState).1, Except.ok i)
      ∧ (constructCM demoEnv initialCMState).1.loads ≤ initialCMState.loads + 1
      ∧ getAllCM (constructCM demoEnv (constructCM demoEnv initialCMState).1).1 =
          getAllCM (constructCM demoEnv initialCMState).1 :=
  config_manager_singleton demoEnv initialCMState demoConfig (by rfl)

/-- Helper for C1: applying any transition to a store whose (first) entry for
the id is CLOSED leaves the store unchanged and reports no change. -/
theorem applyTransition_closed_noop (t : Transition) :
    ∀ (s : Store) (i : String) (p : Position), findPosition s i = some p →
      p.status = Status.CLOSED → applyTransition s i t = some (s, false) := by
  intro s
  induction s with
  | nil => intro i p hf; simp [findPosition] at hf
  | cons q rest ih =>
    intro i p hf hc
    by_cases hq : q.id = i
    · simp [findPosition, hq] at hf
      subst hf
      simp [applyTransition, hq, applyToPosition, hc]
    · simp [findPosition, hq] at hf
      simp [applyTransition, hq, ih i p hf hc]

/-- C1 counterexample: on a store holding one already-CLOSED position, the
POST /api/positions/close endpoint does not succeed with a "no change"
reply — it fails with HTTP 404 ("Position not found or already closed"). -/
theorem close_closed_position_route_is_error :
    demoClosedManual.status = Status.CLOSED
    ∧ (close_position_route [demoClosedManual] (some "XRPUSDT_1h")
        CloseReason.MANUAL).2.http_status = 404
    ∧ (close_position_route [demoClosedManual] (some "XRPUSDT_1h")
        CloseReason.MANUAL).2.success = false := by
  refine ⟨rfl, ?_, ?_⟩ <;>
    simp [close_position_route, closePosition, applyTransition, applyToPosition,
      demoClosedManual, demoLong]

/-- C1 amended: closing an already-CLOSED position is a no-op at the store
level — `close_position` leaves the store unchanged and returns False ("no
change") instead of raising — but the HTTP close endpoint reports that False
as a 404 error rather than a successful "no change" reply. -/
theorem close_on_closed_noop_but_route_404 (s : Store) (i : String)
    (r : CloseReason) (p : Position) (hfind : findPosition s i = some p)
    (hclosed : p.status = Status.CLOSED) :
    closePosition s i r = (s, false)
    ∧ close_position_route s (some i) r = (s, { http_status := 404, success := false }) := by
  have h := applyTransition_closed_noop (Transition.manualClose r) s i p hfind hclosed
  constructor
  · simp [closePosition, h]
  · simp [close_position_route, closePosition, h]

/-- Witness for C1's amended theorem at a concrete closed position. -/
theorem close_on_closed_noop_but_route_404_witness :
    closePosition [demoClosedManual] "XRPUSDT_1h" CloseReason.OTHER = ([demoClosedManual], false)
    ∧ close_position_route [demoClosedManual] (some "XRPUSDT_1h") CloseReason.OTHER =
        ([demoClosedManual], { http_status := 404, success := false }) :=
  close_on_closed_noop_but_route_404 [demoClosedManual] "XRPUSDT_1h" CloseReason.OTHER
    demoClosedManual (by simp [findPosition, demoClosedManual, demoLong]) rfl

/-- Setting a flag to true never clears another flag. -/
theorem getD_set_true (l : List Bool) :
    ∀ k i, l.getD i false = true → (l.set k true).getD i false = true := by
  induction l with
  | nil => intro k i h; simp [List.getD] at h
  | cons a l ih =>
    intro k i h
    cases k with
    | zero =>
      cases i with
      | zero => simp
      | succ j => simpa using h
    | succ k =>
      cases i with
      | zero => simpa using h
      | succ j => simpa using ih k j (by simpa using h)

/-- One transition never clears a hit flag. -/
theorem applyToPosition_mono (p : Position) (t : Transition) :
    flagsMono p (applyToPosition p t).1 := by
  intro j hj
  unfold applyToPosition
  by_cases hc : p.status = Status.CLOSED
  · simpa [hc] using hj
  · cases t with
    | slHit price => simpa [hc, closeWith] using hj
    | manualClose reason => simpa [hc, closeWith] using hj
    | tpHit k price =>
      cases hg : p.hit_flags[k]? with
      | none => simpa [hc, hg] using hj
      | some b =>
        cases b with
        | true => simpa [hc, hg] using hj
        | false =>
          by_cases hf : k + 1 = p.take_profits.length
          · simpa [hc, hg, hf, closeWith] using getD_set_true p.hit_flags k j hj
          · simpa [hc, hg, hf] using getD_set_true p.hit_flags k j hj

/-- A sequence of transitions never clears a hit flag. -/
theorem applyTransitions_mono (ts : List Transition) :
    ∀ p : Position, flagsMono p (applyTransitions p ts).1 := by
  induction ts with
  | nil => intro p; exact flagsMono_refl p
  | cons t ts ih =>
    intro p
    have hstep : (applyTransitions p (t :: ts)).1 =
        (applyTransitions (applyToPosition p t).1 ts).1 := by
      cases t <;> simp [applyTransitions]
    rw [hstep]
    exact flagsMono_trans (applyToPosition_mono p t) (ih (applyToPosition p t).1)

/-- Processing one price sample never clears a hit flag. -/
theorem updatePosition_mono (p : Position) (price : ℚ) :
    flagsMono p (updatePosition p price).1 := by
  have : (updatePosition p price).1 = (applyTransitions p (evaluate p price)).1 := by
    simp [updatePosition]
  rw [this]
  exact applyTransitions_mono (evaluate p price) p

/-- One update pass relates the store elementwise by flag monotonicity. -/
theorem runUpdatePass_mono (prices : String → Option ℚ) :
    ∀ s : Store, List.Forall₂ flagsMono s (runUpdatePass prices s).1 := by
  intro s
  induction s with
  | nil => simp [runUpdatePass]
  | cons p rest ih =>
    cases hp : prices p.symbol with
    | none =>
      simpa [runUpdatePass, hp] using List.Forall₂.cons (flagsMono_refl p) ih
    | some pr =>
      by_cases ho : p.status = Status.OPEN
      · simpa [runUpdatePass, hp, ho] using
          List.Forall₂.cons (updatePosition_mono p pr) ih
      · simpa [runUpdatePass, hp, ho] using List.Forall₂.cons (flagsMono_refl p) ih

/-- Elementwise flag monotonicity composes along successive stores. -/
theorem forall₂_flagsMono_trans : ∀ {a b c : Store},
    List.Forall₂ flagsMono a b → List.Forall₂ flagsMono b c →
    List.Forall₂ flagsMono a c := by
  intro a b c h1
  induction h1 generalizing c with
  | nil => intro h2; cases h2; exact List.Forall₂.nil
  | cons hpq h1 ih =>
    intro h2
    cases h2 with
    | cons hqr h2 => exact List.Forall₂.cons (flagsMono_trans hpq hqr) (ih h2)

/-- C2: across any sequence of update passes (each with its own price
source), every position's hit flags are monotonically non-decreasing —
once a take-profit flag is true it stays true. -/
theorem hit_flags_monotone_across_passes (s : Store)
    (fs : List (String → Option ℚ)) :
    List.Forall₂ flagsMono s (runPasses s fs) := by
  induction fs generalizing s with
  | nil =>
    simpa [runPasses] using
      (List.forall₂_same).2 (fun p _ => flagsMono_refl p)
  | cons f fs ih =>
    exact forall₂_flagsMono_trans (runUpdatePass_mono f s) (ih (runUpdatePass f s).1)

/-- A transition leaves the position id unchanged. -/
theorem applyToPosition_id (p : Position) (t : Transition) :
    (applyToPosition p t).1.id = p.id := by
  unfold applyToPosition
  by_cases hc : p.status = Status.CLOSED
  · simp [hc]
  · cases t with
    | slHit price => simp [hc, closeWith]
    | manualClose reason => simp [hc, closeWith]
    | tpHit k price =>
      cases hg : p.hit_flags[k]? with
      | none => simp [hc, hg]
      | some b =>
        cases b with
        | true => simp [hc, hg]
        | false =>
          by_cases hf : k + 1 = p.take_profits.length <;>
            simp [hc, hg, hf, closeWith]

/-- Re-applying a transition that just changed a position is absorbed: the
position is unchanged and "no change" is reported. -/
theorem applyToPosition_change_idem (p : Position) (t : Transition)
    (h : (applyToPosition p t).2 = true) :
    applyToPosition (applyToPosition p t).1 t = ((applyToPosition p t).1, false) := by
  by_cases hc : p.status = Status.CLOSED
  · simp [applyToPosition, hc] at h
  · cases t with
    | slHit price => simp [applyToPosition, hc, closeWith]
    | manualClose reason => simp [applyToPosition, hc, closeWith]
    | tpHit k price =>
      cases hg : p.hit_flags[k]? with
      | none => simp [applyToPosition, hc, hg] at h
      | some b =>
        cases b with
        | true => simp [applyToPosition, hc, hg] at h
        | false =>
          have hk : k < p.hit_flags.length := by
            have := List.getElem?_eq_some_iff.1 hg
            exact this.1
          by_cases hf : k + 1 = p.take_profits.length
          · simp [applyToPosition, hc, hg, hf, closeWith]
          · have hset : (p.hit_flags.set k true)[k]? = some true := by
              simp [List.getElem?_set, hk]
            simp [applyToPosition, hc, hg, hf, hset]

/-- C5: two overlapping update passes that compute the same crossing both
call `apply_transition` for the same position and level; with transitions
applied atomically in some serialization order (spec section 5), the first
application commits the change and the second is absorbed — the store is
left exactly as after the first and "no change" is reported, so the
transition is committed exactly once. -/
theorem duplicate_transition_committed_once (s : Store) (i : String)
    (t : Transition) (s1 : Store) (h : applyTransition s i t = some (s1, true)) :
    applyTransition s1 i t = some (s1, false) := by
  induction s generalizing s1 with
  | nil => simp [applyTransition] at h
  | cons p rest ih =>
    by_cases hp : p.id = i
    · have hmatch : applyTransition (p :: rest) i t =
          some ((applyToPosition p t).1 :: rest, (applyToPosition p t).2) := by
        simp [applyTransition, hp]
      rw [hmatch] at h
      simp only [Option.some.injEq, Prod.mk.injEq] at h
      obtain ⟨hs1, hch⟩ := h
      subst hs1
      have hid : (applyToPosition p t).1.id = i := by
        rw [applyToPosition_id]; exact hp
      simp [applyTransition, hid, applyToPosition_change_idem p t hch]
    · have hrec : applyTransition (p :: rest) i t =
          match applyTransition rest i t with
          | none => none
          | some (rest1, ch) => some (p :: rest1, ch) := by
        simp [applyTransition, hp]
      rw [hrec] at h
      cases hr : applyTransition rest i t with
      | none => rw [hr] at h; simp at h
      | some r =>
        rw [hr] at h
        rcases r with ⟨rest1, ch⟩
        simp only [Option.some.injEq, Prod.mk.injEq] at h
        obtain ⟨hs1, hch⟩ := h
        subst hch
        subst hs1
        simp [applyTransition, hp, ih rest1 hr]

/-- Witness for C5: a duplicated TP1 hit on the demo store is committed once. -/
theorem duplicate_transition_committed_once_witness :
    applyTransition [demoLong1] "BTCUSDT_4h" (Transition.tpHit 0 115) =
      some ([demoLong1], false) :=
  duplicate_transition_committed_once [demoLong] "BTCUSDT_4h"
    (Transition.tpHit 0 115) [demoLong1]
    (by norm_num +decide [applyTransition, applyToPosition, demoLong, demoLong1])

/-- C6: in an update pass, every position whose symbol's price is
unavailable is skipped fail-soft: its record (status included, so an OPEN
one stays OPEN) is carried into the new store unchanged, no transition is
attempted for it, and it never appears in the pass's result mapping — every
reported entry belongs to a position whose price was retrieved.  The pass
itself is a total function, so the unavailability never surfaces as an
error to its caller. -/
theorem unavailable_price_fail_soft (s : Store) (prices : String → Option ℚ)
    (sym : String) (h : prices sym = none) :
    List.Forall₂ (fun p q => p.symbol = sym → q = p) s (runUpdatePass prices s).1
    ∧ ∀ e ∈ (runUpdatePass prices s).2,
        ∃ p, p ∈ s ∧ e.1 = p.id ∧ prices p.symbol ≠ none := by
  induction s with
  | nil => simp [runUpdatePass]
  | cons p rest ih =>
    obtain ⟨ih1, ih2⟩ := ih
    cases hp : prices p.symbol with
    | none =>
      refine ⟨?_, ?_⟩
      · have hstep : (runUpdatePass prices (p :: rest)).1 =
            p :: (runUpdatePass prices rest).1 := by
          simp [runUpdatePass, hp]
        rw [hstep]
        exact List.Forall₂.cons (fun _ => rfl) ih1
      · intro e he
        simp only [runUpdatePass, hp] at he
        obtain ⟨q, hq, he1, he2⟩ := ih2 e he
        exact ⟨q, List.mem_cons_of_mem p hq, he1, he2⟩
    | some pr =>
      have hne : p.symbol ≠ sym := fun hps => by rw [hps, h] at hp; cases hp
      by_cases ho : p.status = Status.OPEN
      · refine ⟨?_, ?_⟩
        · have hstep : (runUpdatePass prices (p :: rest)).1 =
              (updatePosition p pr).1 :: (runUpdatePass prices rest).1 := by
            simp [runUpdatePass, hp, ho]
          rw [hstep]
          exact List.Forall₂.cons (fun hps => absurd hps hne) ih1
        · intro e he
          simp only [runUpdatePass, hp, ho, if_true] at he
          by_cases hempty :
              ((updatePosition p pr).2.tp_hits.isEmpty &&
                !(updatePosition p pr).2.position_closed) = true
          · rw [if_pos hempty] at he
            obtain ⟨q, hq, he1, he2⟩ := ih2 e he
            exact ⟨q, List.mem_cons_of_mem p hq, he1, he2⟩
          · rw [if_neg hempty] at he
            rcases List.mem_cons.1 he with he0 | he'
            · exact ⟨p, List.mem_cons_self p rest, by rw [he0], by rw [hp]; simp⟩
            · obtain ⟨q, hq, he1, he2⟩ := ih2 e he'
              exact ⟨q, List.mem_cons_of_mem p hq, he1, he2⟩
      · refine ⟨?_, ?_⟩
        · have hstep : (runUpdatePass prices (p :: rest)).1 =
              p :: (runUpdatePass prices rest).1 := by
            simp [runUpdatePass, hp, ho]
          rw [hstep]
          exact List.Forall₂.cons (fun hps => absurd hps hne) ih1
        · intro e he
          simp only [runUpdatePass, hp, ho] at he
          obtain ⟨q, hq, he1, he2⟩ := ih2 e he
          exact ⟨q, List.mem_cons_of_mem p hq, he1, he2⟩

/-- Witness for C6: a pass whose price source has no quote for the demo
symbol leaves the demo store untouched and reports nothing. -/
theorem unavailable_price_fail_soft_witness :
    List.Forall₂ (fun p q => p.symbol = "BTCUSDT" → q = p) [demoLong]
      (runUpdatePass (fun _ => none) [demoLong]).1
    ∧ ∀ e ∈ (runUpdatePass (fun _ => none) [demoLong]).2,
        ∃ p, p ∈ [demoLong] ∧ e.1 = p.id ∧ (fun _ : String => (none : Option ℚ)) p.symbol ≠ none :=
  unavailable_price_fail_soft [demoLong] (fun _ => none) "BTCUSDT" rfl

/-- C4: whenever a price sample crosses the stop-loss of an OPEN position —
in particular when it also crosses one or more not-yet-hit take-profit
levels — the evaluator reports only the stop-loss close: no TP hit is
reported, the position closes with reason STOP_LOSS.  The spec's SHORT
example (entry 100, SL 105, TP [90], sample 106) is included verbatim. -/
theorem stop_loss_tiebreak (p : Position) (price : ℚ)
    (hopen : p.status = Status.OPEN)
    (hsl : slCrossed p.direction price p.stop_loss = true)
    (htp : newLevels p price ≠ []) :
    evaluate p price = [Transition.slHit price]
    ∧ (updatePosition p price).2.tp_hits = []
    ∧ (updatePosition p price).2.position_closed = true
    ∧ (updatePosition p price).2.close_reason = some CloseReason.STOP_LOSS
    ∧ (updatePosition p price).1.status = Status.CLOSED
    ∧ updatePosition demoShort 106 = (demoShortClosed,
        { tp_hits := [], position_closed := true,
          close_reason := some CloseReason.STOP_LOSS }) := by
  have hnc : ¬ p.status = Status.CLOSED := by rw [hopen]; intro hx; cases hx
  have hev : evaluate p price = [Transition.slHit price] := by
    simp [evaluate, hnc, hsl]
  refine ⟨hev, ?_, ?_, ?_, ?_, ?_⟩
  · simp [updatePosition, hev, applyTransitions, applyToPosition, hnc]
  · simp [updatePosition, hev, applyTransitions, applyToPosition, hnc, closeWith, hopen]
  · simp [updatePosition, hev, applyTransitions, applyToPosition, hnc, closeWith, hopen]
  · simp [updatePosition, hev, applyTransitions, applyToPosition, hnc, closeWith]
  · norm_num +decide [updatePosition, evaluate, demoShort, slCrossed, applyTransitions,
      applyToPosition, closeWith, pnlPct, demoShortClosed]

/-- Witness for C4 at a position where the sample crosses both the stop-loss
and an untouched take-profit level. -/
theorem stop_loss_tiebreak_witness :
    evaluate demoOverlap 97 = [Transition.slHit 97]
    ∧ (updatePosition demoOverlap 97).2.tp_hits = []
    ∧ (updatePosition demoOverlap 97).2.position_closed = true
    ∧ (updatePosition demoOverlap 97).2.close_reason = some CloseReason.STOP_LOSS
    ∧ (updatePosition demoOverlap 97).1.status = Status.CLOSED
    ∧ updatePosition demoShort 106 = (demoShortClosed,
        { tp_hits := [], position_closed := true,
          close_reason := some CloseReason.STOP_LOSS }) :=
  stop_loss_tiebreak demoOverlap 97 rfl (by decide) (by decide)

/-- The level scan is exactly a filter of the index range, shifted by the
starting index. -/
theorem newTpLevels_eq_filter (dir : Direction) (price : ℚ) :
    ∀ (l : List (ℚ × Bool)) (k : Nat),
      newTpLevels dir price l k =
        ((List.range l.length).filter
          (fun j => !(l.getD j ((0 : ℚ), true)).2
            && tpCrossed dir price (l.getD j ((0 : ℚ), true)).1)).map
          (fun j => j + k) := by
  intro l
  induction l with
  | nil => intro k; simp [newTpLevels]
  | cons x l ih =>
    intro k
    rcases x with ⟨tp, flag⟩
    have hshift :
        (((List.range l.length).map Nat.succ).filter
            (fun j => !(((tp, flag) :: l).getD j ((0 : ℚ), true)).2
              && tpCrossed dir price (((tp, flag) :: l).getD j ((0 : ℚ), true)).1)).map
          (fun j => j + k) =
        newTpLevels dir price l (k + 1) := by
      rw [List.filter_map, List.map_map, ih (k + 1)]
      apply List.map_congr_left
      intro j hj
      simp [Nat.add_assoc, Nat.add_comm 1 k]
    simp only [List.getD_eq_getElem?_getD] at hshift
    simp only [newTpLevels, List.length_cons, List.range_succ_eq_map, List.filter_cons,
      List.getD_cons_zero]
    by_cases hx : (!flag && tpCrossed dir price tp) = true
    · simp [hx, hshift]
    · simp [hx, hshift]

/-- Inside the common length, a zipped pair's components are the
componentwise lookups. -/
theorem zip_getD (l1 : List ℚ) : ∀ (l2 : List Bool) (j : Nat),
    j < min l1.length l2.length →
    (l1.zip l2).getD j ((0 : ℚ), true) = (l1.getD j 0, l2.getD j true) := by
  induction l1 with
  | nil => intro l2 j h; simp at h
  | cons a l1 ih =>
    intro l2 j h
    cases l2 with
    | nil => simp at h
    | cons b l2 =>
      cases j with
      | zero => simp
      | succ j =>
        simp only [List.zip_cons_cons, List.getD_cons_succ]
        apply ih
        simp only [List.length_cons] at h
        omega

/-- C3: on an OPEN position whose stop-loss is not crossed, one price sample
makes the evaluator report exactly the not-yet-hit take-profit levels that
the price crosses, in strictly ascending level order; the spec's LONG
worked example (entry 100, SL 95, TP [110, 120, 130]) behaves as stated at
samples 115, then 125, then 131, and at a direct jump to 135. -/
theorem evaluate_reports_new_levels (p : Position) (price : ℚ)
    (hopen : p.status = Status.OPEN)
    (hsl : slCrossed p.direction price p.stop_loss = false) :
    evaluate p price = (newLevels p price).map (fun k => Transition.tpHit k price)
    ∧ List.Pairwise (fun a b => a < b) (newLevels p price)
    ∧ updatePosition demoLong 115 = (demoLong1,
        { tp_hits := [0], position_closed := false, close_reason := none })
    ∧ updatePosition demoLong1 125 = (demoLong2,
        { tp_hits := [1], position_closed := false, close_reason := none })
    ∧ updatePosition demoLong2 131 = (demoLong3,
        { tp_hits := [2], position_closed := true,
          close_reason := some CloseReason.FINAL_TAKE_PROFIT })
    ∧ updatePosition demoLong 135 = (demoLongDone,
        { tp_hits := [0, 1, 2], position_closed := true,
          close_reason := some CloseReason.FINAL_TAKE_PROFIT }) := by
  have hnc : ¬ p.status = Status.CLOSED := by rw [hopen]; intro hx; cases hx
  have hmem : ∀ j ∈ List.range (min p.take_profits.length p.hit_flags.length),
      (!(((p.take_profits.zip p.hit_flags).getD j ((0 : ℚ), true)).2)
        && tpCrossed p.direction price
            (((p.take_profits.zip p.hit_flags).getD j ((0 : ℚ), true)).1))
      = (!(p.hit_flags.getD j true)
        && tpCrossed p.direction price (p.take_profits.getD j 0)) := by
    intro j hj
    rw [zip_getD p.take_profits p.hit_flags j (List.mem_range.1 hj)]
  have hlevels : newTpLevels p.direction price (p.take_profits.zip p.hit_flags) 0 =
      newLevels p price := by
    rw [newTpLevels_eq_filter, List.length_zip, List.filter_congr hmem]
    simp [newLevels]
  refine ⟨?_, ?_, ?_, ?_, ?_, ?_⟩
  · simp [evaluate, hnc, hsl, hlevels]
  · unfold newLevels
    exact (List.pairwise_lt_range _).filter _
  · norm_num +decide [updatePosition, evaluate, demoLong, demoLong1, slCrossed,
      applyTransitions, applyToPosition, closeWith, pnlPct, newTpLevels, tpCrossed]
  · norm_num +decide [updatePosition, evaluate, demoLong, demoLong1, demoLong2, slCrossed,
      applyTransitions, applyToPosition, closeWith, pnlPct, newTpLevels, tpCrossed]
  · norm_num +decide [updatePosition, evaluate, demoLong, demoLong2, demoLong3, slCrossed,
      applyTransitions, applyToPosition, closeWith, pnlPct, newTpLevels, tpCrossed]
  · norm_num +decide [updatePosition, evaluate, demoLong, demoLongDone, slCrossed,
      applyTransitions, applyToPosition, closeWith, pnlPct, newTpLevels, tpCrossed]

/-- Witness for C3 at the spec's LONG example and sample 115 (SL not crossed). -/
theorem evaluate_reports_new_levels_witness :
    evaluate demoLong 115 = (newLevels demoLong 115).map (fun k => Transition.tpHit k 115)
    ∧ List.Pairwise (fun a b => a < b) (newLevels demoLong 115)
    ∧ updatePosition demoLong 115 = (demoLong1,
        { tp_hits := [0], position_closed := false, close_reason := none })
    ∧ updatePosition demoLong1 125 = (demoLong2,
        { tp_hits := [1], position_closed := false, close_reason := none })
    ∧ updatePosition demoLong2 131 = (demoLong3,
        { tp_hits := [2], position_closed := true,
          close_reason := some CloseReason.FINAL_TAKE_PROFIT })
    ∧ updatePosition demoLong 135 = (demoLongDone,
        { tp_hits := [0, 1, 2], position_closed := true,
          close_reason := some CloseReason.FINAL_TAKE_PROFIT }) :=
  evaluate_reports_new_levels demoLong 115 rfl (by decide)

/-- The single summary scan computes the length, the closed count, the
winning-closed count and the closed positions' pnl sum. -/
theorem summaryScan_eq (s : Store) :
    summaryScan s =
      (s.length,
       s.countP (fun p => decide (p.status = Status.CLOSED)),
       s.countP (fun p => decide (p.status = Status.CLOSED)
         && decide (0 < p.realized_pnl_pct.getD 0)),
       ((s.filter (fun p => decide (p.status = Status.CLOSED))).map
         (fun p => p.realized_pnl_pct.getD 0)).sum) := by
  induction s with
  | nil => simp [summaryScan]
  | cons p rest ih =>
    cases hs : p.status with
    | OPEN =>
      simp [summaryScan, hs, ih, List.countP_cons, List.filter_cons]
    | CLOSED =>
      simp [summaryScan, hs, ih, List.countP_cons, List.filter_cons, add_comm]

/-- C7: `summary()` reports a win rate equal to the number of closed winning
positions (positive realized pnl) divided by the number of closed positions
times 100 (the quotient over zero closed positions being zero), and a total
pnl equal to the sum of `realized_pnl_pct` over CLOSED positions only —
OPEN positions contribute to neither figure. -/
theorem summary_win_rate_and_total_pnl (s : Store) :
    (getPositionsSummary s).win_rate_pct =
      ((s.countP (fun p => decide (p.status = Status.CLOSED)
          && decide (0 < p.realized_pnl_pct.getD 0)) : ℚ))
        / ((s.countP (fun p => decide (p.status = Status.CLOSED)) : ℚ)) * 100
    ∧ (getPositionsSummary s).total_pnl_pct =
      ((s.filter (fun p => decide (p.status = Status.CLOSED))).map
        (fun p => p.realized_pnl_pct.getD 0)).sum := by
  have hscan := summaryScan_eq s
  constructor
  · by_cases hz : s.countP (fun p => decide (p.status = Status.CLOSED)) = 0
    · have hwin : s.countP (fun p => decide (p.status = Status.CLOSED)
          && decide (0 < p.realized_pnl_pct.getD 0)) = 0 := by
        have hle := List.countP_mono_left
          (l := s)
          (p := fun p => decide (p.status = Status.CLOSED)
            && decide (0 < p.realized_pnl_pct.getD 0))
          (q := fun p => decide (p.status = Status.CLOSED))
          (fun a _ ha => by
            simp only [Bool.and_eq_true] at ha
            exact ha.1)
        omega
      simp [getPositionsSummary, hscan, hz, hwin]
    · simp [getPositionsSummary, hscan, hz]
  · simp [getPositionsSummary, hscan]

end SignalAlert

